import Mathlib

/-!
# Verification of the FreeForecaster bot (`src/main.py`)

A shallow embedding of the forecasting bot's `main.py`.  Python strings are
modelled as `List Char`; the external collaborators (the Wikipedia client, the
news HTTP endpoint, the environment, the local LLM) are modelled as oracle
functions supplied to the embedded operations.
-/

/-- Python strings are modelled as lists of characters. -/
abbrev Str := List Char

/-- Coerce a Lean string literal to the `Str` model. -/
def pyStr (s : String) : Str := s.data

/-- Python's `sep.join(parts)`. -/
def pyJoin (sep : Str) : List Str → Str
  | [] => []
  | [x] => x
  | x :: y :: xs => x ++ sep ++ pyJoin sep (y :: xs)

/-- Python's `a or b` on strings: the empty string is falsy. -/
def py_or (a b : Str) : Str := if a.isEmpty then b else a

/-- Python truthiness of `os.getenv(...)`: `None` and the empty string are falsy. -/
def py_truthy : Option Str → Bool
  | none => false
  | some s => !s.isEmpty

/-- Errors the embedded Python code can raise. -/
inductive PyError : Type where
  | nameError (name : String) : PyError
deriving DecidableEq

/-- The names bound at the top level of `main.py` by its import statements
(lines 1–22): the plain imports and the names in the
`from forecasting_tools import (...)` list, plus the module-level `logger`
binding.  Note that `os` is not among them, and `os` is not a Python builtin. -/
def module_imports : List String :=
  ["argparse", "asyncio", "logging", "datetime", "Literal", "wikipediaapi",
   "requests", "BinaryQuestion", "ForecastBot", "GeneralLlm", "MetaculusApi",
   "MetaculusQuestion", "MultipleChoiceQuestion", "NumericDistribution",
   "NumericQuestion", "PredictedOptionList", "PredictionExtractor",
   "ReasonedPrediction", "clean_indents", "logger"]

/-- Whether the name `os`, referenced at lines 45–46 of `main.py`, resolves in
the module's scope. -/
def os_in_module_scope : Bool := module_imports.contains "os"

/-- Result of `wikipediaapi` page lookup: `wiki_page.exists()` and
`wiki_page.summary`. -/
structure WikiPage where
  page_exists : Bool
  summary : Str

/-- One element of the news response's `articles` array. -/
structure Article where
  title : Str
  url : Str

/-- The `requests.get` response for the news call: `response.status_code` and
the `articles` field of `response.json()` (`none` when the key is missing,
mirrored by `.get('articles', [])`). -/
structure HttpResponse where
  status_code : Nat
  articles : Option (List Article)

/-- Line 40: `question.question_text[:50]`, the title given to `self.wiki.page`. -/
def wiki_title (question_text : Str) : Str := question_text.take 50

/-- Line 46: `question.question_text[:50]`, the `q=` query of the news URL. -/
def news_query (question_text : Str) : Str := question_text.take 50

/-- Line 46: the news URL f-string
`https://newsapi.org/v2/everything?q={...[:50]}&apiKey={...}`. -/
def news_url (query apiKey : Str) : Str :=
  pyStr "https://newsapi.org/v2/everything?q=" ++ query ++ pyStr "&apiKey=" ++ apiKey

/-- Line 51: the bullet f-string `- {a['title']} ({a['url']})`. -/
def fmt_article (a : Article) : Str :=
  pyStr "- " ++ a.title ++ pyStr " (" ++ a.url ++ pyStr ")"

/-- Lines 47–52: what the news branch appends for a given HTTP response —
on status 200, the header plus at most the first 3 articles as bullet lines
(`articles = response.json().get('articles', [])[:3]`); otherwise nothing. -/
def news_section (response : HttpResponse) : Option Str :=
  if response.status_code = 200 then
    some (pyStr "News Headlines:\n" ++
      pyJoin (pyStr "\n") (((response.articles.getD []).take 3).map fmt_article))
  else none

/-- Lines 40–42: the (zero or one) section contributed by the Wikipedia step —
when `wiki_page.exists()`, the header plus `wiki_page.summary[:1000]`. -/
def wiki_sections (wiki : Str → WikiPage) (question_text : Str) : List Str :=
  if (wiki (wiki_title question_text)).page_exists then
    [pyStr "Wikipedia Summary:\n" ++
      (wiki (wiki_title question_text)).summary.take 1000]
  else []

/-- Lines 45–52 (with `os` resolving): the (zero or one) section contributed by
the news step — gated by the truthiness of `os.getenv('NEWS_API_KEY')`,
issuing the GET on the line-46 URL. -/
def news_sections (env : String → Option Str) (news : Str → HttpResponse)
    (question_text : Str) : List Str :=
  if py_truthy (env "NEWS_API_KEY") then
    match news_section (news (news_url (news_query question_text)
        ((env "NEWS_API_KEY").getD []))) with
    | some s => [s]
    | none => []
  else []

/-- The body of `run_research` (lines 35–54), parameterised by whether the name
`os` resolves at line 45.  `env` models `os.getenv`, `wiki` models
`self.wiki.page`, `news` models `requests.get` keyed by the full URL.
When `os` does not resolve, evaluating the condition of line 45 raises
`NameError` (after the Wikipedia step of lines 40–42 has already run). -/
def run_research_body (osImported : Bool) (env : String → Option Str)
    (wiki : Str → WikiPage) (news : Str → HttpResponse)
    (question_text : Str) : Except PyError Str :=
  if osImported then
    let research := wiki_sections wiki question_text ++
      news_sections env news question_text
    .ok (if research.isEmpty then pyStr "No free research available"
         else pyJoin (pyStr "\n\n") research)
  else
    .error (.nameError "os")

/-- `run_research` as shipped: its body run in the actual module scope of
`main.py`, where the name `os` does not resolve. -/
def run_research (env : String → Option Str) (wiki : Str → WikiPage)
    (news : Str → HttpResponse) (question_text : Str) : Except PyError Str :=
  run_research_body os_in_module_scope env wiki news question_text

/-- Whitespace stripped from the start of a line by the dedenting helper. -/
def wsChar (c : Char) : Bool := c == ' ' || c == '\t'

/-- Leading whitespace of a line removed. -/
def dropWs (s : Str) : Str := s.dropWhile wsChar

/-- Worker for `clean_indents`: copy characters, and while the `skipping` flag
is set (at the start of the text and after each newline) drop leading
whitespace. -/
def cleanAux : Bool → Str → Str
  | _, [] => []
  | skipping, c :: rest =>
    if c = '\n' then '\n' :: cleanAux true rest
    else if skipping && wsChar c then cleanAux true rest
    else c :: cleanAux false rest

/-- Modelled from the spec: `clean_indents` is the dedenting helper imported
from the external `forecasting_tools` package (line 21) and applied to the
prompt f-string at line 68; it is modelled as removing each line's leading
whitespace. -/
def clean_indents (s : Str) : Str := cleanAux true s

/-- The skipping flag `cleanAux` is left in after processing a segment,
starting from flag `b`: set at the start of the text and after each newline
while whitespace is still being dropped, clear once a line's own content has
begun. -/
def cleanState : Bool → Str → Bool
  | b, [] => b
  | b, c :: rest =>
    if c = '\n' then cleanState true rest
    else if b && wsChar c then cleanState true rest
    else cleanState false rest

/-- The date produced by `datetime.now()`. -/
structure PyDate where
  year : Nat
  month : Nat
  day : Nat

/-- The decimal digit character for `d % 10`. -/
def digitChar (d : Nat) : Char :=
  ['0', '1', '2', '3', '4', '5', '6', '7', '8', '9'].getD (d % 10) '0'

/-- Two-digit zero-padded field (`%m`, `%d`). -/
def pad2 (n : Nat) : Str := [digitChar (n / 10), digitChar n]

/-- Four-digit zero-padded field (`%Y`). -/
def pad4 (n : Nat) : Str :=
  [digitChar (n / 1000), digitChar (n / 100), digitChar (n / 10), digitChar n]

/-- Modelled from the spec: `datetime.now().strftime("%Y-%m-%d")` (line 71) —
an external library call — rendered as zero-padded `YYYY-MM-DD`. -/
def formatYMD (d : PyDate) : Str :=
  pad4 d.year ++ pyStr "-" ++ pad2 d.month ++ pyStr "-" ++ pad2 d.day

/-- The prompt f-string of lines 68–78, line by line, before `clean_indents`.
The f-string opens with a newline after `f"""` and every literal line carries
the source's 8-space indentation; `{research or "No research conducted"}` is
Python's falsy-string fallback. -/
def raw_binary_prompt (question_text current_date research : Str) : Str :=
  pyJoin (pyStr "\n")
    [ pyStr "",
      pyStr "        [Simplified free version]",
      pyStr "        Question: " ++ question_text,
      pyStr "        Current Date: " ++ current_date,
      pyStr "        Research: " ++ py_or research (pyStr "No research conducted"),
      pyStr "        ",
      pyStr "        Analyze and give:",
      pyStr "        1. Key factors affecting outcome",
      pyStr "        2. Most likely outcome (0-100% probability)",
      pyStr "        3. Final answer format: \"Probability: XX%\"",
      pyStr "        " ]

/-- The prompt actually sent: `clean_indents(f"""...""")` (lines 68–78). -/
def binary_prompt (question_text current_date research : Str) : Str :=
  clean_indents (raw_binary_prompt question_text current_date research)

/-- Scan a text left to right collecting every percentage-shaped match — a
maximal digit run immediately followed by `%` — carrying the digit run parsed
so far. -/
def scanPercents : Str → Option Nat → List Nat
  | [], _ => []
  | c :: rest, cur =>
    if c.isDigit then
      scanPercents rest (some (10 * cur.getD 0 + (c.toNat - 48)))
    else if c = '%' then
      match cur with
      | some n => n :: scanPercents rest none
      | none => scanPercents rest none
    else scanPercents rest none

/-- Modelled from the spec: `PredictionExtractor.extract_last_percentage_value`
from the external `forecasting_tools` package (called at line 80) — "the last
occurrence of a percentage-shaped value" in the response text. -/
def extract_last_percentage_value (s : Str) : Option Nat :=
  (scanPercents s none).getLast?

/-- The value returned by `_run_forecast_on_binary` (line 81). -/
structure ReasonedPredictionB where
  prediction_value : Option Nat
  reasoning : Str

/-- `_run_forecast_on_binary` (lines 66–81) with the LLM as an oracle from
prompts to response texts: build the prompt, invoke the model, extract the
last percentage value. -/
def run_forecast_on_binary (question_text research : Str) (now : PyDate)
    (llm : Str → Str) : ReasonedPredictionB :=
  let prompt := binary_prompt question_text (formatYMD now) research
  let reasoning := llm prompt
  { prediction_value := extract_last_percentage_value reasoning
    reasoning := reasoning }

/-- Line 27: `_max_concurrent_questions = 1`. -/
def FreeForecaster_max_concurrent_questions : Nat := 1

/-- Line 28: `_concurrency_limiter = asyncio.Semaphore(_max_concurrent_questions)` —
the initial permit count of the shared semaphore. -/
def concurrency_limiter_permits : Nat := FreeForecaster_max_concurrent_questions

/-- Phases of one question's workflow. -/
inductive QPhase : Type where
  | idle | researching | predicting | publishing | done
deriving DecidableEq

/-- A question is in flight while being researched, predicted, or published. -/
def QPhase.inFlight : QPhase → Bool
  | .researching => true
  | .predicting => true
  | .publishing => true
  | _ => false

/-- State of the orchestrator: the semaphore's permit count and each
question's phase. -/
structure SchedState (n : Nat) where
  permits : Nat
  tasks : Fin n → QPhase

/-- Modelled from the spec: the `ForecastBot` orchestration loop lives in the
external `forecasting_tools` package; per the spec, each question's
research/predict/publish sequence runs while holding the single shared permit
of `_concurrency_limiter` — acquired before research, released after
publishing. -/
inductive SchedStep {n : Nat} : SchedState n → SchedState n → Prop
  | acquire (s : SchedState n) (i : Fin n) :
      s.tasks i = .idle → 0 < s.permits →
      SchedStep s ⟨s.permits - 1, Function.update s.tasks i .researching⟩
  | toPredict (s : SchedState n) (i : Fin n) :
      s.tasks i = .researching →
      SchedStep s ⟨s.permits, Function.update s.tasks i .predicting⟩
  | toPublish (s : SchedState n) (i : Fin n) :
      s.tasks i = .predicting →
      SchedStep s ⟨s.permits, Function.update s.tasks i .publishing⟩
  | release (s : SchedState n) (i : Fin n) :
      s.tasks i = .publishing →
      SchedStep s ⟨s.permits + 1, Function.update s.tasks i .done⟩

/-- The orchestrator's starting state: no question started, the semaphore
holding the permit count of line 28. -/
def initState (n : Nat) : SchedState n :=
  ⟨concurrency_limiter_permits, fun _ => .idle⟩

/-- States the orchestrator can reach from the start by scheduler steps. -/
inductive SchedReachable {n : Nat} : SchedState n → Prop
  | init : SchedReachable (initState n)
  | step {s s' : SchedState n} :
      SchedReachable s → SchedStep s s' → SchedReachable s'

/-- C1: the shipped `run_research` raises `NameError: name 'os' is not defined`
for every question and every environment — the news step is never cleanly
skipped and the news GET is never issued, contradicting the key-gating the
spec describes. -/
theorem c1_news_gate_raises_nameError :
    os_in_module_scope = false ∧
    ∀ (env : String → Option Str) (wiki : Str → WikiPage)
      (news : Str → HttpResponse) (question_text : Str),
      run_research env wiki news question_text = .error (.nameError "os") := by
  constructor
  · rfl
  · intro env wiki news question_text
    rfl

/-- C3: with no `NEWS_API_KEY` set and a non-existent encyclopedia page, the
shipped `run_research` does not return `"No free research available"` — it
raises `NameError` — while the same body with `os` imported does return
exactly that literal. -/
theorem c3_placeholder_not_returned :
    run_research (fun _ => none) (fun _ => ⟨false, []⟩) (fun _ => ⟨404, none⟩)
        (pyStr "Will it rain tomorrow?")
      = .error (.nameError "os") ∧
    run_research (fun _ => none) (fun _ => ⟨false, []⟩) (fun _ => ⟨404, none⟩)
        (pyStr "Will it rain tomorrow?")
      ≠ .ok (pyStr "No free research available") ∧
    run_research_body true (fun _ => none) (fun _ => ⟨false, []⟩)
        (fun _ => ⟨404, none⟩) (pyStr "Will it rain tomorrow?")
      = .ok (pyStr "No free research available") := by
  refine ⟨rfl, ?_, rfl⟩
  intro h
  exact Except.noConfusion h

/-- A produced news section is the header followed by some tail. -/
lemma news_section_shape (resp : HttpResponse) (s : Str)
    (h : news_section resp = some s) :
    resp.status_code = 200 ∧ ∃ tail, s = pyStr "News Headlines:\n" ++ tail := by
  unfold news_section at h
  split at h
  · next h200 =>
    exact ⟨h200, _, (Option.some.injEq _ _).mp h |>.symm⟩
  · exact Option.noConfusion h

/-- Joining sections that are all non-empty, or falling back to the
placeholder, never yields the empty string. -/
lemma joinOrPlaceholder_ne_nil (l : List Str) (h : ∀ x ∈ l, x ≠ []) :
    (if l.isEmpty then pyStr "No free research available"
     else pyJoin (pyStr "\n\n") l) ≠ [] := by
  match l with
  | [] => decide
  | [x] =>
    simpa [pyJoin] using h x (by simp)
  | x :: y :: xs =>
    have hx := h x (by simp)
    simp only [List.isEmpty_cons, Bool.false_eq_true, if_false, pyJoin]
    intro hc
    rcases List.append_eq_nil.mp hc with ⟨hc1, -⟩
    rcases List.append_eq_nil.mp hc1 with ⟨hc2, -⟩
    exact hx hc2

/-- C2: both lookups of `run_research` are keyed by exactly the first 50
characters of the question text: for question texts longer than 50
characters the encyclopedia title and the news `q=` query are the length-50
prefix of the text, the news URL splices exactly that prefix, and the body's
result depends on the Wikipedia oracle only through its value at that
truncated title. -/
theorem c2_queries_truncated_to_50 (question_text : Str)
    (h : 50 < question_text.length) :
    (wiki_title question_text).length = 50 ∧
    wiki_title question_text <+: question_text ∧
    (news_query question_text).length = 50 ∧
    news_query question_text <+: question_text ∧
    (∀ key, news_url (news_query question_text) key =
      pyStr "https://newsapi.org/v2/everything?q=" ++ question_text.take 50 ++
        pyStr "&apiKey=" ++ key) ∧
    (∀ (b : Bool) (env : String → Option Str) (wiki wiki' : Str → WikiPage)
        (news : Str → HttpResponse),
      wiki (wiki_title question_text) = wiki' (wiki_title question_text) →
      run_research_body b env wiki news question_text =
        run_research_body b env wiki' news question_text) := by
  refine ⟨?_, ⟨question_text.drop 50, List.take_append_drop 50 question_text⟩,
    ?_, ⟨question_text.drop 50, List.take_append_drop 50 question_text⟩,
    fun key => rfl, ?_⟩
  · simp [wiki_title, List.length_take]
    omega
  · simp [news_query, List.length_take]
    omega
  · intro b env wiki wiki' news hww
    unfold run_research_body wiki_sections
    rw [hww]

/-- C2 witness: a concrete 58-character question. -/
theorem c2_queries_truncated_to_50_witness :
    50 < (pyStr "Will artificial general intelligence arrive before 2040 ?").length ∧
    (wiki_title (pyStr "Will artificial general intelligence arrive before 2040 ?")).length
      = 50 :=
  ⟨by decide, (c2_queries_truncated_to_50 _ (by decide)).1⟩

/-- The news-enabled body always returns, with the joined-or-placeholder
result over the two section lists. -/
lemma run_research_body_true_eq (env : String → Option Str)
    (wiki : Str → WikiPage) (news : Str → HttpResponse) (question_text : Str) :
    run_research_body true env wiki news question_text =
      .ok (if (wiki_sections wiki question_text ++
              news_sections env news question_text).isEmpty then
            pyStr "No free research available"
          else pyJoin (pyStr "\n\n")
            (wiki_sections wiki question_text ++
              news_sections env news question_text)) := rfl

/-- The news step contributes nothing, or exactly one header-led section. -/
lemma news_sections_shape (env : String → Option Str)
    (news : Str → HttpResponse) (question_text : Str) :
    news_sections env news question_text = [] ∨
    ∃ s tail, news_sections env news question_text = [s] ∧
      s = pyStr "News Headlines:\n" ++ tail := by
  unfold news_sections
  split
  · rcases hns : news_section (news (news_url (news_query question_text)
        ((env "NEWS_API_KEY").getD []))) with _ | s
    · exact Or.inl rfl
    · rcases (news_section_shape _ _ hns).2 with ⟨tail, htail⟩
      exact Or.inr ⟨s, tail, rfl, htail⟩
  · exact Or.inl rfl

/-- C4: whenever the encyclopedia page exists and the news-enabled body of
`run_research` returns a blob, that blob starts with the
`Wikipedia Summary:` header line followed by the first 1000 characters of
the page summary, and the included summary text never exceeds 1000
characters. -/
theorem c4_wikipedia_block (env : String → Option Str) (wiki : Str → WikiPage)
    (news : Str → HttpResponse) (question_text : Str)
    (hpage : (wiki (wiki_title question_text)).page_exists = true)
    (r : Str)
    (hr : run_research_body true env wiki news question_text = .ok r) :
    (pyStr "Wikipedia Summary:\n" ++
      (wiki (wiki_title question_text)).summary.take 1000) <+: r ∧
    ((wiki (wiki_title question_text)).summary.take 1000).length ≤ 1000 := by
  refine ⟨?_, by simp [List.length_take]⟩
  rw [run_research_body_true_eq] at hr
  have hws : wiki_sections wiki question_text =
      [pyStr "Wikipedia Summary:\n" ++
        (wiki (wiki_title question_text)).summary.take 1000] := by
    simp [wiki_sections, hpage]
  rcases news_sections_shape env news question_text with hns | ⟨s, tail, hns, -⟩ <;>
    rw [hws, hns] at hr <;>
    simp only [Except.ok.injEq, List.append_nil, List.singleton_append,
      List.isEmpty_cons, Bool.false_eq_true, if_false, pyJoin] at hr
  · exact ⟨[], by rw [← hr, List.append_nil]⟩
  · exact ⟨pyStr "\n\n" ++ s, by rw [← hr]; simp [List.append_assoc]⟩

/-- C4 witness: a question whose page exists with a short summary and no news
key configured. -/
theorem c4_wikipedia_block_witness :
    ((fun _ => ⟨true, pyStr "X is a topic."⟩ : Str → WikiPage)
        (wiki_title (pyStr "Will X happen by 2025?"))).page_exists = true ∧
    run_research_body true (fun _ => none)
        (fun _ => ⟨true, pyStr "X is a topic."⟩) (fun _ => ⟨404, none⟩)
        (pyStr "Will X happen by 2025?")
      = .ok (pyStr "Wikipedia Summary:\nX is a topic.") ∧
    (pyStr "Wikipedia Summary:\n" ++
        ((fun _ => ⟨true, pyStr "X is a topic."⟩ : Str → WikiPage)
          (wiki_title (pyStr "Will X happen by 2025?"))).summary.take 1000) <+:
      pyStr "Wikipedia Summary:\nX is a topic." :=
  ⟨rfl, rfl,
    (c4_wikipedia_block (fun _ => none) (fun _ => ⟨true, pyStr "X is a topic."⟩)
      (fun _ => ⟨404, none⟩) (pyStr "Will X happen by 2025?") rfl
      (pyStr "Wikipedia Summary:\nX is a topic.") rfl).1⟩

/-- C5: a produced news section holds at most the first 3 returned articles,
each as a `- title (url)` bullet; any non-200 status yields no section; and
the news-enabled body never surfaces an error. -/
theorem c5_news_caps_and_silence (response : HttpResponse) :
    (∀ s, news_section response = some s →
      ∃ arts, arts <+: response.articles.getD [] ∧ arts.length ≤ 3 ∧
        s = pyStr "News Headlines:\n" ++
          pyJoin (pyStr "\n") (arts.map fmt_article)) ∧
    (response.status_code ≠ 200 → news_section response = none) ∧
    (∀ (env : String → Option Str) (wiki : Str → WikiPage)
        (news : Str → HttpResponse) (question_text : Str),
      ∃ r, run_research_body true env wiki news question_text = .ok r) := by
  refine ⟨?_, ?_, fun env wiki news question_text =>
    ⟨_, run_research_body_true_eq env wiki news question_text⟩⟩
  · intro s hs
    unfold news_section at hs
    split at hs
    · refine ⟨(response.articles.getD []).take 3,
        ⟨(response.articles.getD []).drop 3, List.take_append_drop 3 _⟩,
        by simp [List.length_take], ?_⟩
      exact ((Option.some.injEq _ _).mp hs).symm
    · exact Option.noConfusion hs
  · intro h200
    unfold news_section
    rw [if_neg h200]

/-- C5 witness: five returned articles produce exactly the first three
bullets; a 404 produces no section. -/
theorem c5_news_caps_and_silence_witness :
    (∃ arts,
      arts <+: (HttpResponse.mk 200 (some
        [⟨pyStr "T1", pyStr "u1"⟩, ⟨pyStr "T2", pyStr "u2"⟩,
         ⟨pyStr "T3", pyStr "u3"⟩, ⟨pyStr "T4", pyStr "u4"⟩,
         ⟨pyStr "T5", pyStr "u5"⟩])).articles.getD [] ∧
      arts.length ≤ 3 ∧
      pyStr "News Headlines:\n- T1 (u1)\n- T2 (u2)\n- T3 (u3)" =
        pyStr "News Headlines:\n" ++
          pyJoin (pyStr "\n") (arts.map fmt_article)) ∧
    news_section ⟨404, some [⟨pyStr "T1", pyStr "u1"⟩]⟩ = none :=
  ⟨(c5_news_caps_and_silence ⟨200, some
      [⟨pyStr "T1", pyStr "u1"⟩, ⟨pyStr "T2", pyStr "u2"⟩,
       ⟨pyStr "T3", pyStr "u3"⟩, ⟨pyStr "T4", pyStr "u4"⟩,
       ⟨pyStr "T5", pyStr "u5"⟩]⟩).1 _ rfl,
   (c5_news_caps_and_silence ⟨404, some [⟨pyStr "T1", pyStr "u1"⟩]⟩).2.1
     (by decide)⟩

/-- C9: a blob returned by the news-enabled body is never the empty string, so
the `research or "No research conducted"` fallback of the prompt picks the
blob, never the placeholder. -/
theorem c9_research_blob_nonempty (env : String → Option Str)
    (wiki : Str → WikiPage) (news : Str → HttpResponse) (question_text : Str)
    (r : Str)
    (hr : run_research_body true env wiki news question_text = .ok r) :
    r ≠ [] ∧ py_or r (pyStr "No research conducted") = r := by
  rw [run_research_body_true_eq] at hr
  have hr' := (Except.ok.injEq _ _).mp hr
  have hne : r ≠ [] := by
    rw [← hr']
    apply joinOrPlaceholder_ne_nil
    intro x hx
    rcases List.mem_append.mp hx with hw | hn
    · unfold wiki_sections at hw
      split at hw
      · rcases List.mem_singleton.mp hw with rfl
        simp [pyStr]
      · exact absurd hw (List.not_mem_nil x)
    · rcases news_sections_shape env news question_text with hns | ⟨s, tail, hns, hsh⟩
      · rw [hns] at hn
        exact absurd hn (List.not_mem_nil x)
      · rw [hns] at hn
        rcases List.mem_singleton.mp hn with rfl
        rw [hsh]
        simp [pyStr]
  refine ⟨hne, ?_⟩
  unfold py_or
  rw [if_neg]
  simp [List.isEmpty_iff, hne]

/-- C9 witness: even with nothing found, the returned blob is the non-empty
placeholder, which survives the prompt's falsy-string fallback. -/
theorem c9_research_blob_nonempty_witness :
    run_research_body true (fun _ => none) (fun _ => ⟨false, []⟩)
        (fun _ => ⟨404, none⟩) (pyStr "Will it rain tomorrow?")
      = .ok (pyStr "No free research available") ∧
    py_or (pyStr "No free research available") (pyStr "No research conducted")
      = pyStr "No free research available" :=
  ⟨rfl,
    (c9_research_blob_nonempty (fun _ => none) (fun _ => ⟨false, []⟩)
      (fun _ => ⟨404, none⟩) (pyStr "Will it rain tomorrow?")
      (pyStr "No free research available") rfl).2⟩

/-- C10: an HTTP 200 with an empty or missing `articles` array still appends a
news section consisting of the bare `News Headlines:` header, so the blob is
non-empty and the placeholder is not returned even without a Wikipedia page. -/
theorem c10_empty_articles_header_only (env : String → Option Str)
    (wiki : Str → WikiPage) (news : Str → HttpResponse)
    (question_text key : Str)
    (henv : env "NEWS_API_KEY" = some key) (hkey : key.isEmpty = false)
    (hstatus : (news (news_url (news_query question_text) key)).status_code = 200)
    (harts : (news (news_url (news_query question_text) key)).articles.getD [] = [])
    (hpage : (wiki (wiki_title question_text)).page_exists = false) :
    run_research_body true env wiki news question_text
      = .ok (pyStr "News Headlines:\n") ∧
    pyStr "News Headlines:\n" ≠ pyStr "No free research available" := by
  refine ⟨?_, by decide⟩
  rw [run_research_body_true_eq]
  have hws : wiki_sections wiki question_text = [] := by
    simp [wiki_sections, hpage]
  have hns : news_sections env news question_text = [pyStr "News Headlines:\n"] := by
    unfold news_sections
    rw [henv]
    simp only [py_truthy, hkey, Bool.not_false, if_true, Option.getD_some]
    unfold news_section
    rw [if_pos hstatus, harts]
    simp [pyJoin]
  rw [hws, hns]
  simp [pyJoin]

/-- C10 witness: a 200 response whose JSON lacks the `articles` key. -/
theorem c10_empty_articles_header_only_witness :
    ((fun _ => some (pyStr "TESTKEY") : String → Option Str) "NEWS_API_KEY"
        = some (pyStr "TESTKEY")) ∧
    (pyStr "TESTKEY").isEmpty = false ∧
    run_research_body true (fun _ => some (pyStr "TESTKEY"))
        (fun _ => ⟨false, []⟩) (fun _ => ⟨200, none⟩)
        (pyStr "Will it rain tomorrow?")
      = .ok (pyStr "News Headlines:\n") :=
  ⟨rfl, rfl,
    (c10_empty_articles_header_only (fun _ => some (pyStr "TESTKEY"))
      (fun _ => ⟨false, []⟩) (fun _ => ⟨200, none⟩)
      (pyStr "Will it rain tomorrow?") (pyStr "TESTKEY")
      rfl rfl rfl rfl rfl).1⟩

/-- Once past a line's leading whitespace, `cleanAux` copies the rest of the
line verbatim. -/
lemma cleanAux_no_newline (x : Str) (hx : '\n' ∉ x) (r : Str) :
    cleanAux false (x ++ r) = x ++ cleanAux false r := by
  induction x with
  | nil => rfl
  | cons c t ih =>
    have hc : c ≠ '\n' := fun h => hx (h ▸ List.mem_cons_self c t)
    have ht : '\n' ∉ t := fun h => hx (List.mem_cons_of_mem c h)
    simp [cleanAux, hc, ih ht]

/-- `cleanAux` is a character-by-character machine: the output on an appended
text splits at the segment boundary, with the remainder processed from the
flag the first segment left behind. -/
lemma cleanAux_append (b : Bool) (x r : Str) :
    cleanAux b (x ++ r) = cleanAux b x ++ cleanAux (cleanState b x) r := by
  induction x generalizing b with
  | nil => rfl
  | cons c t ih =>
    by_cases hc : c = '\n'
    · subst hc
      show '\n' :: cleanAux true (t ++ r) =
        ('\n' :: cleanAux true t) ++ cleanAux (cleanState true t) r
      rw [ih true, List.cons_append]
    · cases b with
      | true =>
        by_cases hw : wsChar c = true
        · have e1 : cleanAux true (c :: (t ++ r)) = cleanAux true (t ++ r) := by
            simp [cleanAux, hc, hw]
          have e2 : cleanAux true (c :: t) = cleanAux true t := by
            simp [cleanAux, hc, hw]
          have e3 : cleanState true (c :: t) = cleanState true t := by
            simp [cleanState, hc, hw]
          rw [List.cons_append, e1, e2, e3, ih true]
        · have e1 : cleanAux true (c :: (t ++ r)) = c :: cleanAux false (t ++ r) := by
            simp [cleanAux, hc, hw]
          have e2 : cleanAux true (c :: t) = c :: cleanAux false t := by
            simp [cleanAux, hc, hw]
          have e3 : cleanState true (c :: t) = cleanState false t := by
            simp [cleanState, hc, hw]
          rw [List.cons_append, e1, e2, e3, ih false, List.cons_append]
      | false =>
        have e1 : cleanAux false (c :: (t ++ r)) = c :: cleanAux false (t ++ r) := by
          simp [cleanAux, hc]
        have e2 : cleanAux false (c :: t) = c :: cleanAux false t := by
          simp [cleanAux, hc]
        have e3 : cleanState false (c :: t) = cleanState false t := by
          simp [cleanState, hc]
        rw [List.cons_append, e1, e2, e3, ih false, List.cons_append]

/-- `cleanAux` distributes over a newline join, for arbitrary (multi-line)
sides: a newline is always kept and always restarts the skipping flag. -/
lemma cleanAux_join (l r : Str) :
    cleanAux true (l ++ '\n' :: r) = cleanAux true l ++ '\n' :: cleanAux true r := by
  rw [cleanAux_append]
  rfl

/-- `clean_indents` over joined lines dedents each line — fully general: the
entries may themselves contain newlines. -/
lemma clean_indents_pyJoin_all (ls : List Str) :
    clean_indents (pyJoin (pyStr "\n") ls) =
      pyJoin (pyStr "\n") (ls.map (cleanAux true)) := by
  induction ls with
  | nil => rfl
  | cons l ls ih =>
    cases ls with
    | nil => rfl
    | cons m ms =>
      have h1 : pyJoin (pyStr "\n") (l :: m :: ms) =
          l ++ '\n' :: pyJoin (pyStr "\n") (m :: ms) := by
        simp [pyJoin, pyStr, List.append_assoc]
      rw [clean_indents, h1, cleanAux_join,
        show cleanAux true (pyJoin (pyStr "\n") (m :: ms)) =
          pyJoin (pyStr "\n") ((m :: ms).map (cleanAux true)) from ih]
      simp [pyJoin, pyStr, List.append_assoc]

/-- An element of a joined list occurs inside the joined string. -/
lemma mem_pyJoin_isPart (sep : Str) (ls : List Str) (a : Str) (ha : a ∈ ls) :
    a <:+: pyJoin sep ls := by
  induction ls with
  | nil => exact absurd ha (List.not_mem_nil a)
  | cons l ls ih =>
    rcases List.mem_cons.mp ha with rfl | ha'
    · cases ls with
      | nil => exact ⟨[], [], by simp [pyJoin]⟩
      | cons m ms =>
        exact ⟨[], sep ++ pyJoin sep (m :: ms), by simp [pyJoin, List.append_assoc]⟩
    · cases ls with
      | nil => exact absurd ha' (List.not_mem_nil a)
      | cons m ms =>
        rcases ih ha' with ⟨s, t, hst⟩
        refine ⟨l ++ sep ++ s, t, ?_⟩
        show l ++ sep ++ s ++ a ++ t = l ++ sep ++ pyJoin sep (m :: ms)
        rw [← hst]
        simp [List.append_assoc]

/-- Digit characters are never a newline. -/
lemma digitChar_ne_newline (d : Nat) : digitChar d ≠ '\n' := by
  unfold digitChar
  have h : d % 10 < 10 := Nat.mod_lt _ (by norm_num)
  set k := d % 10 with hk
  interval_cases k <;> decide

/-- The formatted date contains no newline. -/
lemma formatYMD_chars (d : PyDate) : ∀ c ∈ formatYMD d, c ≠ '\n' := by
  have hexp : formatYMD d =
      [digitChar (d.year / 1000), digitChar (d.year / 100),
       digitChar (d.year / 10), digitChar d.year, '-',
       digitChar (d.month / 10), digitChar d.month, '-',
       digitChar (d.day / 10), digitChar d.day] := rfl
  rw [hexp]
  intro c hc
  simp only [List.mem_cons, List.not_mem_nil, or_false] at hc
  rcases hc with rfl | rfl | rfl | rfl | rfl | rfl | rfl | rfl | rfl | rfl <;>
    first
      | exact digitChar_ne_newline _
      | decide

set_option maxRecDepth 8000 in
/-- C7 counterexample: the verbatim research embedding fails for multi-line
research with an indented continuation line — `clean_indents` dedents every
line of the f-string, the research's own lines included, so the prompt
contains the dedented variant of the research and not the research itself. -/
theorem c7_prompt_counterexample :
    ¬ (pyStr "Research: " ++ pyStr "Wikipedia Summary:\n  X is a topic.") <:+:
        binary_prompt (pyStr "Will X happen by 2025?") (formatYMD ⟨2026, 10, 12⟩)
          (pyStr "Wikipedia Summary:\n  X is a topic.") ∧
    (pyStr "Research: " ++ pyStr "Wikipedia Summary:\nX is a topic.") <:+:
        binary_prompt (pyStr "Will X happen by 2025?") (formatYMD ⟨2026, 10, 12⟩)
          (pyStr "Wikipedia Summary:\n  X is a topic.") := by
  constructor
  · decide
  · decide

/-- C7 (amended): for every question text and research string, the prompt
built by `_run_forecast_on_binary` is the dedented template: it embeds the
`YYYY-MM-DD` current date and the literal closing instruction verbatim, and
embeds the question text and the research string (or the
`No research conducted` placeholder exactly when the research string is
empty) with each of their continuation lines dedented; question and research
appear verbatim exactly when dedenting fixes them, i.e. when no line after
their first starts with whitespace — in particular whenever they are
single-line. -/
theorem c7_prompt_template_amended (question_text research : Str)
    (now : PyDate) :
    binary_prompt question_text (formatYMD now) research =
      pyJoin (pyStr "\n")
        [ pyStr "",
          pyStr "[Simplified free version]",
          pyStr "Question: " ++ cleanAux false question_text,
          pyStr "Current Date: " ++ formatYMD now,
          pyStr "Research: " ++
            cleanAux false (py_or research (pyStr "No research conducted")),
          pyStr "",
          pyStr "Analyze and give:",
          pyStr "1. Key factors affecting outcome",
          pyStr "2. Most likely outcome (0-100% probability)",
          pyStr "3. Final answer format: \"Probability: XX%\"",
          pyStr "" ] ∧
    (pyStr "Current Date: " ++ formatYMD now) <:+:
      binary_prompt question_text (formatYMD now) research ∧
    (pyStr "3. Final answer format: \"Probability: XX%\"") <:+:
      binary_prompt question_text (formatYMD now) research ∧
    (formatYMD now).length = 10 ∧
    (cleanAux false question_text = question_text →
      (pyStr "Question: " ++ question_text) <:+:
        binary_prompt question_text (formatYMD now) research) ∧
    (cleanAux false research = research → research.isEmpty = false →
      (pyStr "Research: " ++ research) <:+:
        binary_prompt question_text (formatYMD now) research) ∧
    (research.isEmpty = true →
      (pyStr "Research: " ++ pyStr "No research conducted") <:+:
        binary_prompt question_text (formatYMD now) research) := by
  have hdatefix : cleanAux false (formatYMD now) = formatYMD now := by
    have h := cleanAux_no_newline (formatYMD now)
      (fun hmem => formatYMD_chars now '\n' hmem rfl) []
    simpa using h
  have hq : cleanAux true (pyStr "        Question: " ++ question_text)
      = pyStr "Question: " ++ cleanAux false question_text :=
    cleanAux_append true (pyStr "        Question: ") question_text
  have hd : cleanAux true (pyStr "        Current Date: " ++ formatYMD now)
      = pyStr "Current Date: " ++ cleanAux false (formatYMD now) :=
    cleanAux_append true (pyStr "        Current Date: ") (formatYMD now)
  have hd' : cleanAux true (pyStr "        Current Date: " ++ formatYMD now)
      = pyStr "Current Date: " ++ formatYMD now := by
    rw [hd, hdatefix]
  have hr : cleanAux true (pyStr "        Research: " ++
        py_or research (pyStr "No research conducted"))
      = pyStr "Research: " ++
        cleanAux false (py_or research (pyStr "No research conducted")) :=
    cleanAux_append true (pyStr "        Research: ")
      (py_or research (pyStr "No research conducted"))
  have hmain : binary_prompt question_text (formatYMD now) research =
      pyJoin (pyStr "\n")
        [ pyStr "",
          pyStr "[Simplified free version]",
          pyStr "Question: " ++ cleanAux false question_text,
          pyStr "Current Date: " ++ formatYMD now,
          pyStr "Research: " ++
            cleanAux false (py_or research (pyStr "No research conducted")),
          pyStr "",
          pyStr "Analyze and give:",
          pyStr "1. Key factors affecting outcome",
          pyStr "2. Most likely outcome (0-100% probability)",
          pyStr "3. Final answer format: \"Probability: XX%\"",
          pyStr "" ] := by
    unfold binary_prompt raw_binary_prompt
    rw [clean_indents_pyJoin_all]
    simp only [List.map_cons, List.map_nil]
    rw [hq, hd', hr]
    rfl
  refine ⟨hmain, ?_, ?_, rfl, ?_, ?_, ?_⟩
  · rw [hmain]
    exact mem_pyJoin_isPart _ _ _ (by simp)
  · rw [hmain]
    exact mem_pyJoin_isPart _ _ _ (by simp)
  · intro hfix
    rw [hmain]
    exact mem_pyJoin_isPart _ _ _ (by simp [hfix])
  · intro hfix hne
    have hpo : py_or research (pyStr "No research conducted") = research := by
      simp [py_or, hne]
    rw [hmain]
    exact mem_pyJoin_isPart _ _ _ (by simp [hpo, hfix])
  · intro hempty
    have hpo : py_or research (pyStr "No research conducted")
        = pyStr "No research conducted" := by
      simp [py_or, hempty]
    rw [hmain]
    exact mem_pyJoin_isPart _ _ _ (by simp [hpo,
      show cleanAux false (pyStr "No research conducted")
        = pyStr "No research conducted" from rfl])

set_option maxRecDepth 8000 in
/-- C7 witness: a concrete multi-line unindented research blob and a concrete
single-line question are embedded verbatim, and empty research yields the
placeholder line. -/
theorem c7_prompt_template_amended_witness :
    cleanAux false (pyStr "Wikipedia Summary:\nX is a topic.")
      = pyStr "Wikipedia Summary:\nX is a topic." ∧
    (pyStr "Question: " ++ pyStr "Will X happen by 2025?") <:+:
      binary_prompt (pyStr "Will X happen by 2025?") (formatYMD ⟨2026, 10, 12⟩)
        (pyStr "Wikipedia Summary:\nX is a topic.") ∧
    (pyStr "Research: " ++ pyStr "Wikipedia Summary:\nX is a topic.") <:+:
      binary_prompt (pyStr "Will X happen by 2025?") (formatYMD ⟨2026, 10, 12⟩)
        (pyStr "Wikipedia Summary:\nX is a topic.") ∧
    (pyStr "Research: " ++ pyStr "No research conducted") <:+:
      binary_prompt (pyStr "Will X happen by 2025?")
        (formatYMD ⟨2026, 10, 12⟩) [] := by
  obtain ⟨-, -, -, -, hq1, hr1, -⟩ :=
    c7_prompt_template_amended (pyStr "Will X happen by 2025?")
      (pyStr "Wikipedia Summary:\nX is a topic.") ⟨2026, 10, 12⟩
  obtain ⟨-, -, -, -, -, -, hph⟩ :=
    c7_prompt_template_amended (pyStr "Will X happen by 2025?") [] ⟨2026, 10, 12⟩
  exact ⟨by decide, hq1 (by decide), hr1 (by decide) (by decide), hph rfl⟩

/-- One unfolding step of the scanner on a cons cell. -/
lemma scanPercents_cons (c : Char) (rest : Str) (cur : Option Nat) :
    scanPercents (c :: rest) cur =
      if c.isDigit then
        scanPercents rest (some (10 * cur.getD 0 + (c.toNat - 48)))
      else if c = '%' then
        match cur with
        | some n => n :: scanPercents rest none
        | none => scanPercents rest none
      else scanPercents rest none := rfl

/-- Scanning past any text up to a non-digit, non-`%` character only prepends
matches: the scan of the remainder restarts from a clean state. -/
lemma scanPercents_append_reset (h : Char) (hd : h.isDigit = false)
    (hp : h ≠ '%') (m : Str) :
    ∀ (t : Str) (cur : Option Nat),
      ∃ xs, scanPercents (t ++ h :: m) cur = xs ++ scanPercents m none := by
  intro t
  induction t with
  | nil =>
    intro cur
    refine ⟨[], ?_⟩
    rw [List.nil_append, List.nil_append, scanPercents_cons,
      if_neg (by simp [hd]), if_neg hp]
  | cons c t ih =>
    intro cur
    rw [List.cons_append]
    cases hcd : c.isDigit with
    | true =>
      obtain ⟨xs, hxs⟩ := ih (some (10 * cur.getD 0 + (c.toNat - 48)))
      refine ⟨xs, ?_⟩
      rw [scanPercents_cons, if_pos hcd]
      exact hxs
    | false =>
      by_cases hcp : c = '%'
      · subst hcp
        cases cur with
        | none =>
          obtain ⟨xs, hxs⟩ := ih none
          refine ⟨xs, ?_⟩
          have hstep : scanPercents ('%' :: (t ++ h :: m)) none =
              scanPercents (t ++ h :: m) none := rfl
          rw [hstep, hxs]
        | some n =>
          obtain ⟨xs, hxs⟩ := ih none
          refine ⟨n :: xs, ?_⟩
          have hstep : scanPercents ('%' :: (t ++ h :: m)) (some n) =
              n :: scanPercents (t ++ h :: m) none := rfl
          rw [hstep, hxs, List.cons_append]
      · obtain ⟨xs, hxs⟩ := ih none
        refine ⟨xs, ?_⟩
        rw [scanPercents_cons, if_neg (by simp [hcd]), if_neg hcp]
        exact hxs

/-- The last element of a list ending in a singleton. -/
lemma getLast?_append_singleton : ∀ (xs : List Nat) (a : Nat),
    (xs ++ [a]).getLast? = some a
  | [], _ => rfl
  | [_], _ => rfl
  | _ :: y :: ys, a => by
    rw [List.cons_append, List.cons_append, List.getLast?_cons_cons]
    exact getLast?_append_singleton (y :: ys) a

/-- C6: the prediction adopted by `_run_forecast_on_binary` is the last
percentage-shaped value of the model response: any response ending in
`Probability: 73%` extracts 73, a response with an earlier `20%` still
extracts 73 (the matches, in order, are `[20, 73]`), and the adopted
prediction value is exactly the extractor applied to the full response. -/
theorem c6_last_percentage :
    (∀ (response earlier : Str),
      response = earlier ++ pyStr "Probability: 73%" →
      extract_last_percentage_value response = some 73) ∧
    scanPercents (pyStr "There is a 20% base rate. Probability: 73%") none
      = [20, 73] ∧
    extract_last_percentage_value
      (pyStr "There is a 20% base rate. Probability: 73%") = some 73 ∧
    (∀ (question_text research : Str) (now : PyDate) (llm : Str → Str),
      (run_forecast_on_binary question_text research now llm).prediction_value =
        extract_last_percentage_value
          (llm (binary_prompt question_text (formatYMD now) research))) := by
  refine ⟨?_, rfl, rfl, fun _ _ _ _ => rfl⟩
  intro response earlier hresp
  subst hresp
  unfold extract_last_percentage_value
  have h1 : pyStr "Probability: 73%" = 'P' :: pyStr "robability: 73%" := rfl
  rw [h1]
  obtain ⟨xs, hxs⟩ := scanPercents_append_reset 'P' (by decide) (by decide)
    (pyStr "robability: 73%") earlier none
  rw [hxs]
  have h2 : scanPercents (pyStr "robability: 73%") none = [73] := rfl
  rw [h2]
  exact getLast?_append_singleton xs 73

/-- C6 witness: a concrete response ending in the required line. -/
theorem c6_last_percentage_witness :
    extract_last_percentage_value
      (pyStr "Base rates suggest 40%. Probability: 73%") = some 73 :=
  c6_last_percentage.1 _ (pyStr "Base rates suggest 40%. ") rfl

/-- The orchestrator invariant: either the permit is free and no question is
in flight, or it is held and exactly one question is in flight. -/
def SchedInv {n : Nat} (s : SchedState n) : Prop :=
  (s.permits = 1 ∧ ∀ i, (s.tasks i).inFlight = false) ∨
  (s.permits = 0 ∧ ∃ i, (s.tasks i).inFlight = true ∧
    ∀ j, j ≠ i → (s.tasks j).inFlight = false)

/-- The invariant holds initially. -/
lemma schedInv_init (n : Nat) : SchedInv (initState n) :=
  Or.inl ⟨rfl, fun _ => rfl⟩

/-- Every scheduler step preserves the invariant. -/
lemma schedInv_step {n : Nat} {s s' : SchedState n} (h : SchedInv s)
    (hs : SchedStep s s') : SchedInv s' := by
  cases hs with
  | acquire i hid hper =>
    rcases h with ⟨h1, hall⟩ | ⟨h0, -⟩
    · refine Or.inr ⟨by simp [h1], i, ?_, ?_⟩
      · simp [Function.update_same, QPhase.inFlight]
      · intro j hj
        simp only [Function.update_noteq hj]
        exact hall j
    · omega
  | toPredict i hres =>
    rcases h with ⟨h1, hall⟩ | ⟨h0, k, hk, hothers⟩
    · have hcon := hall i
      rw [hres] at hcon
      simp [QPhase.inFlight] at hcon
    · have hik : i = k := by
        by_contra hne
        have hcon := hothers i hne
        rw [hres] at hcon
        simp [QPhase.inFlight] at hcon
      subst hik
      refine Or.inr ⟨h0, i, ?_, ?_⟩
      · simp [Function.update_same, QPhase.inFlight]
      · intro j hj
        simp only [Function.update_noteq hj]
        exact hothers j hj
  | toPublish i hpre =>
    rcases h with ⟨h1, hall⟩ | ⟨h0, k, hk, hothers⟩
    · have hcon := hall i
      rw [hpre] at hcon
      simp [QPhase.inFlight] at hcon
    · have hik : i = k := by
        by_contra hne
        have hcon := hothers i hne
        rw [hpre] at hcon
        simp [QPhase.inFlight] at hcon
      subst hik
      refine Or.inr ⟨h0, i, ?_, ?_⟩
      · simp [Function.update_same, QPhase.inFlight]
      · intro j hj
        simp only [Function.update_noteq hj]
        exact hothers j hj
  | release i hpub =>
    rcases h with ⟨h1, hall⟩ | ⟨h0, k, hk, hothers⟩
    · have hcon := hall i
      rw [hpub] at hcon
      simp [QPhase.inFlight] at hcon
    · have hik : i = k := by
        by_contra hne
        have hcon := hothers i hne
        rw [hpub] at hcon
        simp [QPhase.inFlight] at hcon
      subst hik
      refine Or.inl ⟨by simp only []; omega, ?_⟩
      intro j
      by_cases hj : j = i
      · subst hj
        simp [Function.update_same, QPhase.inFlight]
      · simp only [Function.update_noteq hj]
        exact hothers j hj

/-- The invariant holds in every reachable state. -/
lemma schedInv_reachable {n : Nat} {s : SchedState n}
    (h : SchedReachable s) : SchedInv s := by
  induction h with
  | init => exact schedInv_init n
  | step _ hs ih => exact schedInv_step ih hs

/-- C8: the semaphore starts with exactly the one permit of line 27, and in
every reachable orchestrator state no two distinct questions are
simultaneously in flight (researching, predicting, or publishing). -/
theorem c8_mutual_exclusion (n : Nat) (s : SchedState n)
    (h : SchedReachable s) :
    (initState n).permits = FreeForecaster_max_concurrent_questions ∧
    ∀ i j : Fin n, i ≠ j → (s.tasks i).inFlight = true →
      (s.tasks j).inFlight = true → False := by
  refine ⟨rfl, ?_⟩
  intro i j hij hi hj
  rcases schedInv_reachable h with ⟨-, hall⟩ | ⟨-, k, -, hothers⟩
  · rw [hall i] at hi
    exact Bool.noConfusion hi
  · by_cases hik : i = k
    · subst hik
      rw [hothers j (Ne.symm hij)] at hj
      exact Bool.noConfusion hj
    · rw [hothers i hik] at hi
      exact Bool.noConfusion hi

/-- C8 witness: a two-question orchestrator one acquire step in — the initial
permit count matches line 27 and the acquired state is reachable. -/
theorem c8_mutual_exclusion_witness :
    (initState 2).permits = FreeForecaster_max_concurrent_questions ∧
    SchedReachable (SchedState.mk (n := 2)
      ((initState 2).permits - 1)
      (Function.update (initState 2).tasks 0 .researching)) :=
  have hreach : SchedReachable (SchedState.mk (n := 2)
      ((initState 2).permits - 1)
      (Function.update (initState 2).tasks 0 .researching)) :=
    SchedReachable.step SchedReachable.init
      (SchedStep.acquire (initState 2) 0 rfl (by decide))
  ⟨(c8_mutual_exclusion 2 _ hreach).1, hreach⟩
